import Mathlib

/-
  Shallow embedding of the job-tracker backend.

  Sources:
    src/unnamed/part_000          : Mongoose schemas (jobSchema, feedbackSchema)
    src/middleware/validation.js  : express-validator chains (jobValidation,
                                    feedbackValidation, validateRequest)
    src/routes/jobs.js            : job route handlers
    src/routes/feedback.js        : feedback route handlers and admin route handlers

  Conventions of the embedding:
  - documents carry a numeric `id` standing for the Mongo `_id`;
  - instants (`Date` values) are modelled as `Nat` timestamps;
  - a request body field that may be absent is an `Option`;
  - the real-time `req.io.emit` / `io.to(room).emit` calls are modelled by an
    `emitSucceeds : Bool` parameter: `true` means the publish returns normally
    and the event is recorded, `false` means the publish throws.  Since every
    emit in the source sits inside the handler's `try` block, a throwing emit
    transfers control to the `catch` branch, which sends the 500 response;
    the database write made before the emit is not rolled back.
-/

namespace JobTracker

/- Job.status enum (src/unnamed/part_000, jobSchema.status). -/

inductive JobStatus where
  | applied
  | interview
  | offer
  | rejected
  | accepted
deriving DecidableEq, Repr

def jobStatusToString : JobStatus → String
  | .applied => "applied"
  | .interview => "interview"
  | .offer => "offer"
  | .rejected => "rejected"
  | .accepted => "accepted"

def parseJobStatus (s : String) : Option JobStatus :=
  if s = "applied" then some .applied
  else if s = "interview" then some .interview
  else if s = "offer" then some .offer
  else if s = "rejected" then some .rejected
  else if s = "accepted" then some .accepted
  else none

/- Feedback.rating: the feedbackSchema constrains rating to an integer in
   [1,5] (min 1, max 5, required), so stored ratings are one of five values. -/

inductive Rating where
  | one
  | two
  | three
  | four
  | five
deriving DecidableEq, Repr

def Rating.toNat : Rating → Nat
  | .one => 1
  | .two => 2
  | .three => 3
  | .four => 4
  | .five => 5

def ratingOfInt (n : Int) : Option Rating :=
  if n = 1 then some .one
  else if n = 2 then some .two
  else if n = 3 then some .three
  else if n = 4 then some .four
  else if n = 5 then some .five
  else none

/- Feedback.status and Feedback.category enums (feedbackSchema). -/

inductive FeedbackStatus where
  | pending
  | reviewed
  | resolved
deriving DecidableEq, Repr

def parseFeedbackStatus (s : String) : Option FeedbackStatus :=
  if s = "pending" then some .pending
  else if s = "reviewed" then some .reviewed
  else if s = "resolved" then some .resolved
  else none

inductive FeedbackCategory where
  | general
  | feature
  | bug
  | improvement
deriving DecidableEq, Repr

/- JavaScript String.prototype.trim (the `.trim()` sanitizer of the validator
   chains and the `trim: true` schema option): strip leading and trailing
   whitespace.  Implemented structurally over the character list so that the
   kernel can evaluate it on concrete payloads. -/

def isJsWhitespace (c : Char) : Bool :=
  c == ' ' || c == '\t' || c == '\n' || c == '\r'

def dropLeadingWhitespace : List Char → List Char
  | [] => []
  | c :: cs => if isJsWhitespace c then dropLeadingWhitespace cs else c :: cs

def strTrim (s : String) : String :=
  String.mk (dropLeadingWhitespace ((dropLeadingWhitespace s.data.reverse).reverse))

def strContainsChar (s : String) (c : Char) : Bool :=
  s.data.contains c

/- Documents (src/unnamed/part_000). -/

structure Job where
  id : Nat
  user : Nat
  company : String
  position : String
  status : JobStatus
  appliedDate : Nat
  notes : Option String
  salary : Option Int
  location : Option String
  jobUrl : Option String
  createdAt : Nat
  updatedAt : Nat
deriving DecidableEq, Repr

structure Feedback where
  id : Nat
  name : Option String
  email : Option String
  feedback : String
  rating : Rating
  category : FeedbackCategory
  isPublic : Bool
  status : FeedbackStatus
  createdAt : Nat
deriving DecidableEq, Repr

structure User where
  id : Nat
  name : String
  email : String
  role : String
  isActive : Bool
  createdAt : Nat
deriving DecidableEq, Repr

/- JSON response envelope: we keep the HTTP status code, the `success` flag
   and the `message` field of the envelope. -/

structure ApiResponse where
  code : Nat
  success : Bool
  message : Option String
deriving DecidableEq, Repr

/- Real-time events published through the socket layer. -/

inductive Event where
  | jobCreated (jobId : Nat)
  | jobStatusUpdated (jobId : Nat) (oldStatus : JobStatus) (newStatus : JobStatus)
  | jobDeleted (jobId : Nat)
  | newFeedback (feedbackId : Nat)
deriving DecidableEq, Repr

/- Request body for POST /jobs and PUT /jobs/:id.  `appliedDate = some d`
   stands for a body carrying a valid ISO-8601 date denoting the instant `d`;
   `none` stands for an omitted field (an ill-formed date string is rejected by
   the same `isISO8601` check that rejects a missing one, so the claims below
   are insensitive to the distinction).  `salary` is already numeric, which
   makes the `isNumeric` rule vacuous in the embedding. -/

structure JobPayload where
  company : Option String
  position : Option String
  status : Option String
  appliedDate : Option Nat
  notes : Option String
  salary : Option Int
deriving DecidableEq, Repr

def jobStatusStrings : List String :=
  ["applied", "interview", "offer", "rejected", "accepted"]

/- jobValidation (src/middleware/validation.js lines 43-67).  `company` and
   `position` are trimmed and must have length in [1,100]; `status` is
   optional but must be one of the five enum strings when present;
   `appliedDate` must be a valid ISO-8601 date and is NOT marked optional,
   so an absent field fails the rule; `notes` is optional with length at
   most 500; `salary` is optional and numeric. -/

def jobValidationPasses (p : JobPayload) : Bool :=
  (match p.company with
   | some c => decide (1 ≤ (strTrim c).length) && decide ((strTrim c).length ≤ 100)
   | none => false) &&
  (match p.position with
   | some c => decide (1 ≤ (strTrim c).length) && decide ((strTrim c).length ≤ 100)
   | none => false) &&
  (match p.status with
   | some s => jobStatusStrings.contains s
   | none => true) &&
  p.appliedDate.isSome &&
  (match p.notes with
   | some n => decide (n.length ≤ 500)
   | none => true)

/- validateRequest (src/middleware/validation.js lines 3-13): on any failed
   rule the request is answered 400 with message "Validation failed". -/

def validationFailedResponse : ApiResponse :=
  { code := 400, success := false, message := some "Validation failed" }

/- Job.create applying the schema defaults (src/unnamed/part_000, jobSchema):
   `status` defaults to "applied" and `appliedDate` defaults to `Date.now`
   when the corresponding field is absent from the payload. -/

def createJobRecord (p : JobPayload) (userId : Nat) (now : Nat) (newId : Nat) : Job :=
  { id := newId
    user := userId
    company := strTrim (p.company.getD "")
    position := strTrim (p.position.getD "")
    status := (p.status.bind parseJobStatus).getD JobStatus.applied
    appliedDate := p.appliedDate.getD now
    notes := p.notes
    salary := p.salary
    location := none
    jobUrl := none
    createdAt := now
    updatedAt := now }

structure JobsOutcome where
  response : ApiResponse
  events : List Event
  db : List Job
deriving DecidableEq, Repr

/- POST /jobs (src/routes/jobs.js lines 81-109): run jobValidation and
   validateRequest, then inside `try`: `Job.create`, then `req.io.emit`
   of the job-created event, then the 201 response.  A throwing emit is
   caught by the handler's `catch`, which answers 500; the created document
   stays in the database. -/

def createJobPipeline (db : List Job) (p : JobPayload) (userId : Nat) (now : Nat)
    (newId : Nat) (emitSucceeds : Bool) : JobsOutcome :=
  if jobValidationPasses p then
    let job := createJobRecord p userId now newId
    let db2 := db ++ [job]
    if emitSucceeds then
      { response := { code := 201, success := true,
                      message := some "Job application created successfully" }
        events := [Event.jobCreated newId]
        db := db2 }
    else
      { response := { code := 500, success := false,
                      message := some "Server error while creating job" }
        events := []
        db := db2 }
  else
    { response := validationFailedResponse, events := [], db := db }

/- Request body for POST /feedback.  `rating` is carried as the submitted
   integer.  `isEmailFormat` abstracts the `isEmail` format rule of
   express-validator (no claim depends on the exact format grammar); the
   shape "has a head, an at-sign and a tail" is all the claims need. -/

structure FeedbackPayload where
  name : Option String
  email : Option String
  feedback : Option String
  rating : Option Int
  category : Option FeedbackCategory
  isPublic : Option Bool
deriving DecidableEq, Repr

def isEmailFormat (e : String) : Bool :=
  strContainsChar e '@'

/- feedbackValidation (src/middleware/validation.js lines 69-87): `feedback`
   trimmed, required, length in [1,1000]; `rating` a required integer in
   [1,5]; `name` optional, trimmed, length at most 50; `email` optional,
   must be an email when present. -/

def feedbackValidationPasses (p : FeedbackPayload) : Bool :=
  (match p.feedback with
   | some f => decide (1 ≤ (strTrim f).length) && decide ((strTrim f).length ≤ 1000)
   | none => false) &&
  (match p.rating with
   | some r => decide (1 ≤ r) && decide (r ≤ 5)
   | none => false) &&
  (match p.name with
   | some n => decide ((strTrim n).length ≤ 50)
   | none => true) &&
  (match p.email with
   | some e => isEmailFormat e
   | none => true)

/- Feedback.create applying the schema defaults (src/unnamed/part_000,
   feedbackSchema): `category` defaults to general, `isPublic` to true and
   `status` to pending. -/

def createFeedbackRecord (p : FeedbackPayload) (now : Nat) (newId : Nat) : Feedback :=
  { id := newId
    name := p.name.map strTrim
    email := p.email
    feedback := strTrim (p.feedback.getD "")
    rating := (p.rating.bind ratingOfInt).getD Rating.one
    category := p.category.getD FeedbackCategory.general
    isPublic := p.isPublic.getD true
    status := FeedbackStatus.pending
    createdAt := now }

structure FeedbackOutcome where
  response : ApiResponse
  events : List Event
  db : List Feedback
deriving DecidableEq, Repr

/- POST /feedback (src/routes/feedback.js lines 10-32): validation, then
   inside `try`: `Feedback.create`, then `req.io.to(admin-room).emit` of the
   new-feedback event, then the 201 response.  A throwing emit falls into
   the `catch`, which answers 500; the created document stays. -/

def createFeedbackPipeline (db : List Feedback) (p : FeedbackPayload) (now : Nat)
    (newId : Nat) (emitSucceeds : Bool) : FeedbackOutcome :=
  if feedbackValidationPasses p then
    let fb := createFeedbackRecord p now newId
    let db2 := db ++ [fb]
    if emitSucceeds then
      { response := { code := 201, success := true,
                      message := some "Feedback submitted successfully" }
        events := [Event.newFeedback newId]
        db := db2 }
    else
      { response := { code := 500, success := false,
                      message := some "Server error while submitting feedback" }
        events := []
        db := db2 }
  else
    { response := validationFailedResponse, events := [], db := db }

/- Aggregation: the `$group: {_id: field, count: {$sum: 1}}` stage yields one
   (value, count) pair per distinct value of the field that occurs in the
   collection — values unseen in the data produce no pair. -/

def countJobsWithStatus (jobs : List Job) (st : JobStatus) : Nat :=
  (jobs.filter (fun j => j.status == st)).length

def jobStatusAggregate (jobs : List Job) : List (JobStatus × Nat) :=
  ((jobs.map Job.status).dedup).map (fun st => (st, countJobsWithStatus jobs st))

def countFeedbackWithRating (fbs : List Feedback) (r : Rating) : Nat :=
  (fbs.filter (fun f => f.rating == r)).length

def feedbackRatingAggregate (fbs : List Feedback) : List (Rating × Nat) :=
  ((fbs.map Feedback.rating).dedup).map (fun r => (r, countFeedbackWithRating fbs r))

/- The `$sort: {_id: -1}` stage following the rating group (feedback stats
   and admin stats): order the pairs by descending key. -/

def insertDescBy {α : Type} (f : α → Nat) (x : α) : List α → List α
  | [] => [x]
  | y :: ys => if f y < f x then x :: y :: ys else y :: insertDescBy f x ys

def sortDescBy {α : Type} (f : α → Nat) : List α → List α
  | [] => []
  | x :: xs => insertDescBy f x (sortDescBy f xs)

def sortedFeedbackRatingAggregate (fbs : List Feedback) : List (Rating × Nat) :=
  sortDescBy (fun pr => pr.1.toNat) (feedbackRatingAggregate fbs)

/- GET /jobs/stats/overview (src/routes/jobs.js lines 200-248): the
   `statusStats` object literal seeds all five statuses at 0, then
   `stats.forEach(stat => statusStats[stat._id] = stat.count)` overwrites
   the keys present in the aggregation output. -/

structure StatusStats where
  applied : Nat
  interview : Nat
  offer : Nat
  rejected : Nat
  accepted : Nat
deriving DecidableEq, Repr

def StatusStats.get (s : StatusStats) : JobStatus → Nat
  | .applied => s.applied
  | .interview => s.interview
  | .offer => s.offer
  | .rejected => s.rejected
  | .accepted => s.accepted

def StatusStats.set (s : StatusStats) : JobStatus → Nat → StatusStats
  | .applied, c => { s with applied := c }
  | .interview, c => { s with interview := c }
  | .offer, c => { s with offer := c }
  | .rejected, c => { s with rejected := c }
  | .accepted, c => { s with accepted := c }

def zeroStatusStats : StatusStats :=
  { applied := 0, interview := 0, offer := 0, rejected := 0, accepted := 0 }

def mergeStatusStats : StatusStats → List (JobStatus × Nat) → StatusStats
  | base, [] => base
  | base, (st, c) :: rest => mergeStatusStats (base.set st c) rest

def jobStatsOverviewStatusStats (jobs : List Job) : StatusStats :=
  mergeStatusStats zeroStatusStats (jobStatusAggregate jobs)

/- GET /feedback/stats (src/routes/feedback.js lines 75-119): the
   `ratingDistribution` object literal seeds the keys 5,4,3,2,1 at 0 and the
   forEach overwrites the keys present in the (sorted) aggregation output. -/

structure RatingStats where
  r1 : Nat
  r2 : Nat
  r3 : Nat
  r4 : Nat
  r5 : Nat
deriving DecidableEq, Repr

def RatingStats.get (s : RatingStats) : Rating → Nat
  | .one => s.r1
  | .two => s.r2
  | .three => s.r3
  | .four => s.r4
  | .five => s.r5

def RatingStats.set (s : RatingStats) : Rating → Nat → RatingStats
  | .one, c => { s with r1 := c }
  | .two, c => { s with r2 := c }
  | .three, c => { s with r3 := c }
  | .four, c => { s with r4 := c }
  | .five, c => { s with r5 := c }

def zeroRatingStats : RatingStats :=
  { r1 := 0, r2 := 0, r3 := 0, r4 := 0, r5 := 0 }

def mergeRatingStats : RatingStats → List (Rating × Nat) → RatingStats
  | base, [] => base
  | base, (r, c) :: rest => mergeRatingStats (base.set r c) rest

def feedbackStatsRatingDistribution (fbs : List Feedback) : RatingStats :=
  mergeRatingStats zeroRatingStats (sortedFeedbackRatingAggregate fbs)

/- GET /admin/stats (src/routes/feedback.js, admin router lines 136-223):
   `jobStatusStats` and `feedbackRatingStats` are the raw aggregation
   outputs, placed in the response as-is — no zero-seeded object is built
   for them. -/

def adminJobStatusStats (jobs : List Job) : List (JobStatus × Nat) :=
  jobStatusAggregate jobs

def adminFeedbackRatingStats (fbs : List Feedback) : List (Rating × Nat) :=
  sortedFeedbackRatingAggregate fbs

/- Average rating: `Feedback.aggregate([{ $group: {_id: null, avgRating:
   {$avg: rating}} }])` yields an empty result array on an empty collection
   and a one-element array holding the arithmetic mean otherwise;
   `result[0]?.avgRating || 0` turns the empty case into 0.  Used verbatim
   by GET /feedback/stats (lines 88-109) and GET /admin/stats (admin router
   lines 143-146). -/

def feedbackRatingSum (fbs : List Feedback) : Nat :=
  (fbs.map (fun f => f.rating.toNat)).sum

def feedbackAvgAggregate (fbs : List Feedback) : Option ℚ :=
  if fbs.isEmpty then none
  else some ((feedbackRatingSum fbs : ℚ) / (fbs.length : ℚ))

def feedbackAverageRating (fbs : List Feedback) : ℚ :=
  (feedbackAvgAggregate fbs).getD 0

/- Query building for the list endpoints.  A query is a conjunction of an
   optional owner condition and an optional exact-match status condition. -/

structure JobQuery where
  user : Option Nat
  status : Option String
deriving DecidableEq, Repr

/- The shared guard `if (status && status !== 'all') query.status = status`
   (GET /jobs, src/routes/jobs.js lines 16-18; GET /admin/jobs, admin router
   lines 288-290).  An absent parameter and the empty string are both falsy
   in JavaScript, so neither adds the condition. -/

def statusFilterCondition (status : Option String) : Option String :=
  match status with
  | some s => if s ≠ "" ∧ s ≠ "all" then some s else none
  | none => none

def buildJobListQuery (userId : Nat) (status : Option String) : JobQuery :=
  { user := some userId, status := statusFilterCondition status }

def buildAdminJobListQuery (status : Option String) : JobQuery :=
  { user := none, status := statusFilterCondition status }

def jobMatchesQuery (q : JobQuery) (j : Job) : Bool :=
  (match q.user with
   | some u => j.user == u
   | none => true) &&
  (match q.status with
   | some s => jobStatusToString j.status == s
   | none => true)

def runJobListQuery (db : List Job) (q : JobQuery) : List Job :=
  db.filter (jobMatchesQuery q)

/- Pagination (identical in every list handler):
   `.limit(limit * 1).skip((page - 1) * limit)` over the sorted matching
   sequence, `total = countDocuments(query)` independent of page/limit, and
   `pages = Math.ceil(total / limit)`. -/

def paginateList {α : Type} (l : List α) (page : Nat) (limit : Nat) : List α :=
  (l.drop ((page - 1) * limit)).take limit

def ceilDivNat (a b : Nat) : Nat :=
  (a + b - 1) / b

structure ListEnvelope (α : Type) where
  count : Nat
  total : Nat
  page : Nat
  pages : Nat
  data : List α
deriving Repr

def buildListEnvelope {α : Type} (matching : List α) (page : Nat) (limit : Nat) :
    ListEnvelope α :=
  let returned := paginateList matching page limit
  { count := returned.length
    total := matching.length
    page := page
    pages := ceilDivNat matching.length limit
    data := returned }

/- GET /jobs (src/routes/jobs.js lines 11-47): filter by owner and status,
   paginate the matching sequence. -/

def listJobsPipeline (db : List Job) (userId : Nat) (status : Option String)
    (page : Nat) (limit : Nat) : ListEnvelope Job :=
  buildListEnvelope (runJobListQuery db (buildJobListQuery userId status)) page limit

/- Single-job lookup scoped to the owner:
   `Job.findOne({_id: req.params.id, user: req.user._id})`. -/

def findOwnedJob (db : List Job) (jobId : Nat) (userId : Nat) : Option Job :=
  db.find? (fun j => j.id == jobId && j.user == userId)

def jobNotFoundResponse : ApiResponse :=
  { code := 404, success := false, message := some "Job not found" }

/- GET /jobs/:id (src/routes/jobs.js lines 52-76). -/

def getJobByIdPipeline (db : List Job) (jobId : Nat) (userId : Nat) : ApiResponse :=
  match findOwnedJob db jobId userId with
  | none => jobNotFoundResponse
  | some _ => { code := 200, success := true, message := none }

/- PUT /jobs/:id (src/routes/jobs.js lines 114-157): jobValidation and
   validateRequest run first; then the owner-scoped findOne (404 when
   absent); then `findByIdAndUpdate(id, req.body, {new: true})` applies the
   body's fields to the document with that id; the job-status-updated event
   is emitted only when the stored status differs from the prior one. -/

def applyJobUpdate (j : Job) (p : JobPayload) (now : Nat) : Job :=
  { j with
    company := match p.company with
      | some c => strTrim c
      | none => j.company
    position := match p.position with
      | some c => strTrim c
      | none => j.position
    status := match p.status with
      | some s => (parseJobStatus s).getD j.status
      | none => j.status
    appliedDate := match p.appliedDate with
      | some d => d
      | none => j.appliedDate
    notes := match p.notes with
      | some n => some n
      | none => j.notes
    salary := match p.salary with
      | some v => some v
      | none => j.salary
    updatedAt := now }

def updateJobPipeline (db : List Job) (jobId : Nat) (userId : Nat) (p : JobPayload)
    (now : Nat) (emitSucceeds : Bool) : JobsOutcome :=
  if jobValidationPasses p then
    match findOwnedJob db jobId userId with
    | none => { response := jobNotFoundResponse, events := [], db := db }
    | some job =>
      let oldStatus := job.status
      let job2 := applyJobUpdate job p now
      let db2 := db.map (fun x => if x.id == jobId then applyJobUpdate x p now else x)
      if oldStatus ≠ job2.status then
        if emitSucceeds then
          { response := { code := 200, success := true,
                          message := some "Job application updated successfully" }
            events := [Event.jobStatusUpdated jobId oldStatus job2.status]
            db := db2 }
        else
          { response := { code := 500, success := false,
                          message := some "Server error while updating job" }
            events := []
            db := db2 }
      else
        { response := { code := 200, success := true,
                        message := some "Job application updated successfully" }
          events := []
          db := db2 }
  else
    { response := validationFailedResponse, events := [], db := db }

/- DELETE /jobs/:id (src/routes/jobs.js lines 162-195): owner-scoped findOne
   (404 when absent), `findByIdAndDelete(id)`, then the job-deleted emit
   inside `try`, then the 200 response. -/

def deleteJobPipeline (db : List Job) (jobId : Nat) (userId : Nat)
    (emitSucceeds : Bool) : JobsOutcome :=
  match findOwnedJob db jobId userId with
  | none => { response := jobNotFoundResponse, events := [], db := db }
  | some _ =>
    let db2 := db.filter (fun x => !(x.id == jobId))
    if emitSucceeds then
      { response := { code := 200, success := true,
                      message := some "Job application deleted successfully" }
        events := [Event.jobDeleted jobId]
        db := db2 }
    else
      { response := { code := 500, success := false,
                      message := some "Server error while deleting job" }
        events := []
        db := db2 }

structure UsersOutcome where
  response : ApiResponse
  db : List User
deriving DecidableEq, Repr

def findUserById (db : List User) (userId : Nat) : Option User :=
  db.find? (fun u => u.id == userId)

/- PUT /admin/users/:id/toggle-status (src/routes/feedback.js, admin router
   lines 435-460): findById (404 when absent), flip `isActive`, save. -/

def toggleUserStatusPipeline (db : List User) (userId : Nat) : UsersOutcome :=
  match findUserById db userId with
  | none =>
    { response := { code := 404, success := false, message := some "User not found" }
      db := db }
  | some u =>
    let u2 := { u with isActive := !u.isActive }
    { response := { code := 200, success := true,
                    message := some (if u2.isActive then "User activated successfully"
                                     else "User deactivated successfully") }
      db := db.map (fun x => if x.id == userId then u2 else x) }

def findFeedbackById (db : List Feedback) (feedbackId : Nat) : Option Feedback :=
  db.find? (fun f => f.id == feedbackId)

def feedbackStatusStrings : List String :=
  ["pending", "reviewed", "resolved"]

/- PUT /admin/feedback/:id/status (src/routes/feedback.js, admin router
   lines 367-402): reject 400 unless the body's status is one of the three
   enum strings (an absent field is likewise rejected, since
   `includes(undefined)` is false); then `findByIdAndUpdate(id, {status})`
   sets only the status field of the document with that id, 404 when no
   such document exists. -/

def updateFeedbackStatusPipeline (db : List Feedback) (feedbackId : Nat)
    (statusBody : Option String) : FeedbackOutcome :=
  let statusOk := match statusBody with
    | some s => feedbackStatusStrings.contains s
    | none => false
  if statusOk then
    match findFeedbackById db feedbackId with
    | none =>
      { response := { code := 404, success := false,
                      message := some "Feedback not found" }
        events := []
        db := db }
    | some fb =>
      let newStatus := (statusBody.bind parseFeedbackStatus).getD fb.status
      { response := { code := 200, success := true,
                      message := some "Feedback status updated successfully" }
        events := []
        db := db.map (fun x => if x.id == feedbackId then { x with status := newStatus } else x) }
  else
    { response := { code := 400, success := false, message := some "Invalid status" }
      events := []
      db := db }

/- Sample records used by concrete witnesses and counterexamples. -/

def sampleJob (i : Nat) (uid : Nat) (st : JobStatus) : Job :=
  { id := i, user := uid, company := "Acme", position := "Engineer", status := st
    appliedDate := 10, notes := none, salary := none, location := none, jobUrl := none
    createdAt := i, updatedAt := i }

def sampleFeedback (i : Nat) (r : Rating) : Feedback :=
  { id := i, name := none, email := none, feedback := "Great tool", rating := r
    category := FeedbackCategory.general, isPublic := true
    status := FeedbackStatus.pending, createdAt := i }

def sampleUser (i : Nat) (active : Bool) : User :=
  { id := i, name := "Jo", email := "jo@example.com", role := "applicant"
    isActive := active, createdAt := i }

/- Helper lemmas about the embedded operations. -/

theorem statusStats_get_set (s : StatusStats) (st st2 : JobStatus) (c : Nat) :
    (s.set st c).get st2 = if st2 = st then c else s.get st2 := by
  cases st <;> cases st2 <;> simp [StatusStats.set, StatusStats.get]

theorem mergeStatusStats_get (g : JobStatus → Nat) :
    ∀ (pairs : List (JobStatus × Nat)) (base : StatusStats),
      (∀ pr ∈ pairs, pr.2 = g pr.1) →
      ∀ st, (mergeStatusStats base pairs).get st =
        if st ∈ pairs.map Prod.fst then g st else base.get st := by
  intro pairs
  induction pairs with
  | nil => intro base _ st; simp [mergeStatusStats]
  | cons pr rest ih =>
    intro base h st
    obtain ⟨s0, c0⟩ := pr
    have hc0 : c0 = g s0 := h (s0, c0) (by simp)
    have hrest : ∀ q ∈ rest, q.2 = g q.1 := fun q hq => h q (List.mem_cons_of_mem _ hq)
    rw [mergeStatusStats, ih (base.set s0 c0) hrest st]
    by_cases hmem : st ∈ rest.map Prod.fst
    · simp [hmem]
    · by_cases heq : st = s0
      · subst heq
        simp [hmem, statusStats_get_set, hc0]
      · simp [hmem, heq, statusStats_get_set]

theorem ratingStats_get_set (s : RatingStats) (r r2 : Rating) (c : Nat) :
    (s.set r c).get r2 = if r2 = r then c else s.get r2 := by
  cases r <;> cases r2 <;> simp [RatingStats.set, RatingStats.get]

theorem mergeRatingStats_get (g : Rating → Nat) :
    ∀ (pairs : List (Rating × Nat)) (base : RatingStats),
      (∀ pr ∈ pairs, pr.2 = g pr.1) →
      ∀ r, (mergeRatingStats base pairs).get r =
        if r ∈ pairs.map Prod.fst then g r else base.get r := by
  intro pairs
  induction pairs with
  | nil => intro base _ r; simp [mergeRatingStats]
  | cons pr rest ih =>
    intro base h r
    obtain ⟨r0, c0⟩ := pr
    have hc0 : c0 = g r0 := h (r0, c0) (by simp)
    have hrest : ∀ q ∈ rest, q.2 = g q.1 := fun q hq => h q (List.mem_cons_of_mem _ hq)
    rw [mergeRatingStats, ih (base.set r0 c0) hrest r]
    by_cases hmem : r ∈ rest.map Prod.fst
    · simp [hmem]
    · by_cases heq : r = r0
      · subst heq
        simp [hmem, ratingStats_get_set, hc0]
      · simp [hmem, heq, ratingStats_get_set]

theorem mem_insertDescBy {α : Type} (f : α → Nat) (x y : α) (l : List α) :
    y ∈ insertDescBy f x l ↔ y = x ∨ y ∈ l := by
  induction l with
  | nil => simp [insertDescBy]
  | cons z zs ih =>
    rw [insertDescBy]
    by_cases h : f z < f x
    · simp only [if_pos h, List.mem_cons]
    · simp only [if_neg h, List.mem_cons, ih]
      tauto

theorem mem_sortDescBy {α : Type} (f : α → Nat) (y : α) (l : List α) :
    y ∈ sortDescBy f l ↔ y ∈ l := by
  induction l with
  | nil => simp [sortDescBy]
  | cons z zs ih =>
    rw [sortDescBy, mem_insertDescBy]
    simp [ih, List.mem_cons]

theorem countJobsWithStatus_eq_zero (jobs : List Job) (st : JobStatus)
    (h : st ∉ jobs.map Job.status) : countJobsWithStatus jobs st = 0 := by
  rw [countJobsWithStatus, List.length_eq_zero, List.filter_eq_nil_iff]
  intro j hj
  simp only [beq_iff_eq]
  intro hst
  exact h (List.mem_map.mpr ⟨j, hj, hst⟩)

theorem countFeedbackWithRating_eq_zero (fbs : List Feedback) (r : Rating)
    (h : r ∉ fbs.map Feedback.rating) : countFeedbackWithRating fbs r = 0 := by
  rw [countFeedbackWithRating, List.length_eq_zero, List.filter_eq_nil_iff]
  intro f hf
  simp only [beq_iff_eq]
  intro hr
  exact h (List.mem_map.mpr ⟨f, hf, hr⟩)

theorem find?_map_update {α : Type} (p : α → Bool) (f : α → α)
    (hf : ∀ x, p x = true → p (f x) = true) (db : List α) :
    (db.map (fun x => if p x then f x else x)).find? p = (db.find? p).map f := by
  induction db with
  | nil => simp
  | cons x xs ih =>
    by_cases hx : p x = true
    · simp only [List.map_cons, if_pos hx]
      rw [List.find?_cons_of_pos _ (hf x hx), List.find?_cons_of_pos _ hx]
      simp
    · have hx2 : p x = false := by
        cases hpx : p x
        · rfl
        · exact absurd hpx hx
      simp only [List.map_cons, if_neg hx]
      rw [List.find?_cons_of_neg _ (by simp [hx2]), List.find?_cons_of_neg _ (by simp [hx2])]
      exact ih

theorem ceilDivNat_eq_ceil (t L : Nat) (hL : 0 < L) :
    ceilDivNat t L = Nat.ceil ((t : ℚ) / (L : ℚ)) := by
  have hq : (0 : ℚ) < (L : ℚ) := by exact_mod_cast hL
  have hdef : ceilDivNat t L = t ⌈/⌉ L := (Nat.ceilDiv_eq_add_pred_div t L).symm
  rw [hdef]
  apply le_antisymm
  · rw [ceilDiv_le_iff_le_smul hL, smul_eq_mul]
    have h1 : ((t : ℚ) / (L : ℚ)) ≤ (Nat.ceil ((t : ℚ) / (L : ℚ)) : ℚ) := Nat.le_ceil _
    have h2 : (t : ℚ) ≤ (Nat.ceil ((t : ℚ) / (L : ℚ)) : ℚ) * (L : ℚ) := (div_le_iff₀ hq).mp h1
    have h3 : t ≤ Nat.ceil ((t : ℚ) / (L : ℚ)) * L := by exact_mod_cast h2
    calc t ≤ Nat.ceil ((t : ℚ) / (L : ℚ)) * L := h3
    _ = L * Nat.ceil ((t : ℚ) / (L : ℚ)) := Nat.mul_comm _ _
  · rw [Nat.ceil_le]
    have h1 : t ≤ L * (t ⌈/⌉ L) := le_smul_ceilDiv hL
    have h2 : (t : ℚ) ≤ (L : ℚ) * ((t ⌈/⌉ L : ℕ) : ℚ) := by exact_mod_cast h1
    rw [div_le_iff₀ hq]
    calc (t : ℚ) ≤ (L : ℚ) * ((t ⌈/⌉ L : ℕ) : ℚ) := h2
    _ = ((t ⌈/⌉ L : ℕ) : ℚ) * (L : ℚ) := mul_comm _ _

/- Concrete payloads used by witnesses and counterexamples. -/

def payloadNoAppliedDate : JobPayload :=
  { company := some "Acme", position := some "Engineer", status := none
    appliedDate := none, notes := none, salary := none }

def payloadValidNoStatus : JobPayload :=
  { company := some "Acme", position := some "Engineer", status := none
    appliedDate := some 42, notes := none, salary := none }

/-- C1 counterexample: a payload that satisfies every jobValidation rule except the
appliedDate one (as shown by the same payload with a date passing validation) is
rejected by POST /jobs with 400 Validation failed and creates no record — so a
payload omitting appliedDate is not accepted and the schema's creation-instant
default never applies through this endpoint. -/
theorem c1_missing_appliedDate_rejected_cex :
    payloadNoAppliedDate.appliedDate = none
    ∧ jobValidationPasses { payloadNoAppliedDate with appliedDate := some 10 } = true
    ∧ jobValidationPasses payloadNoAppliedDate = false
    ∧ (createJobPipeline [] payloadNoAppliedDate 1 100 1 true).response = validationFailedResponse
    ∧ (createJobPipeline [] payloadNoAppliedDate 1 100 1 true).db = [] := by
  refine ⟨rfl, by decide, by decide, ?_, ?_⟩
  · have h : jobValidationPasses payloadNoAppliedDate = false := by decide
    simp [createJobPipeline, h]
  · have h : jobValidationPasses payloadNoAppliedDate = false := by decide
    simp [createJobPipeline, h]

/-- C1 (amended): every payload accepted by POST /jobs gets the 201 response and
appends exactly the record built by the schema defaults; when `status` is omitted
the created record's status is `applied`; and acceptance forces `appliedDate` to be
present — the created record carries the payload's date, so the creation-instant
default for appliedDate is unreachable via POST /jobs (jobValidation requires the
field; a payload omitting it is rejected). -/
theorem c1_create_status_default (db : List Job) (p : JobPayload)
    (uid now newId : Nat) (h : jobValidationPasses p = true) :
    (createJobPipeline db p uid now newId true).response.code = 201
    ∧ (createJobPipeline db p uid now newId true).db
        = db ++ [createJobRecord p uid now newId]
    ∧ (p.status = none → (createJobRecord p uid now newId).status = JobStatus.applied)
    ∧ p.appliedDate.isSome = true
    ∧ (∀ d, p.appliedDate = some d → (createJobRecord p uid now newId).appliedDate = d) := by
  have h2 := h
  simp only [jobValidationPasses, Bool.and_eq_true] at h2
  refine ⟨?_, ?_, ?_, h2.1.2, ?_⟩
  · simp [createJobPipeline, h]
  · simp [createJobPipeline, h]
  · intro hs
    simp [createJobRecord, hs]
  · intro d hd
    simp [createJobRecord, hd]

/-- C1 witness: the amended theorem applied to a concrete valid payload that omits
`status` and carries appliedDate 42. -/
theorem c1_create_status_default_witness :
    jobValidationPasses payloadValidNoStatus = true
    ∧ (createJobPipeline [] payloadValidNoStatus 1 100 1 true).response.code = 201
    ∧ (createJobRecord payloadValidNoStatus 1 100 1).status = JobStatus.applied
    ∧ (createJobRecord payloadValidNoStatus 1 100 1).appliedDate = 42 := by
  have hv : jobValidationPasses payloadValidNoStatus = true := by decide
  have h := c1_create_status_default [] payloadValidNoStatus 1 100 1 hv
  exact ⟨hv, h.1, h.2.2.1 rfl, h.2.2.2.2 42 rfl⟩

/-- C2 (amended): the per-user job stats endpoint and the public feedback stats
endpoint build zero-seeded histograms, so every one of the five statuses (resp.
five ratings) is reported with its exact occurrence count, 0 when unseen; the
admin stats endpoint instead returns the raw grouped counts, which contain only
the values present in the data. -/
theorem c2_zero_filled_histograms (jobs : List Job) (fbs : List Feedback) :
    (∀ st, (jobStatsOverviewStatusStats jobs).get st = countJobsWithStatus jobs st)
    ∧ (∀ r, (feedbackStatsRatingDistribution fbs).get r = countFeedbackWithRating fbs r)
    ∧ (adminJobStatusStats jobs).map Prod.fst = (jobs.map Job.status).dedup := by
  have hkeys : (jobStatusAggregate jobs).map Prod.fst = (jobs.map Job.status).dedup := by
    simp [jobStatusAggregate, List.map_map, Function.comp_def]
  refine ⟨?_, ?_, hkeys⟩
  · intro st
    have hpairs : ∀ pr ∈ jobStatusAggregate jobs, pr.2 = countJobsWithStatus jobs pr.1 := by
      intro pr hpr
      rw [jobStatusAggregate] at hpr
      obtain ⟨st0, _, rfl⟩ := List.mem_map.mp hpr
      rfl
    rw [jobStatsOverviewStatusStats,
        mergeStatusStats_get (countJobsWithStatus jobs) _ _ hpairs st]
    by_cases hmem : st ∈ (jobStatusAggregate jobs).map Prod.fst
    · simp [hmem]
    · rw [if_neg hmem]
      have hz : zeroStatusStats.get st = 0 := by cases st <;> rfl
      rw [hz]
      have hnot : st ∉ jobs.map Job.status := by
        intro hmem2
        exact hmem (hkeys ▸ List.mem_dedup.mpr hmem2)
      exact (countJobsWithStatus_eq_zero jobs st hnot).symm
  · intro r
    have hpairs : ∀ pr ∈ sortedFeedbackRatingAggregate fbs,
        pr.2 = countFeedbackWithRating fbs pr.1 := by
      intro pr hpr
      rw [sortedFeedbackRatingAggregate] at hpr
      have hpr2 : pr ∈ feedbackRatingAggregate fbs := (mem_sortDescBy _ pr _).mp hpr
      rw [feedbackRatingAggregate] at hpr2
      obtain ⟨r0, _, rfl⟩ := List.mem_map.mp hpr2
      rfl
    rw [feedbackStatsRatingDistribution,
        mergeRatingStats_get (countFeedbackWithRating fbs) _ _ hpairs r]
    by_cases hmem : r ∈ (sortedFeedbackRatingAggregate fbs).map Prod.fst
    · simp [hmem]
    · rw [if_neg hmem]
      have hz : zeroRatingStats.get r = 0 := by cases r <;> rfl
      rw [hz]
      have hnot : r ∉ fbs.map Feedback.rating := by
        intro hmem2
        apply hmem
        apply List.mem_map.mpr
        refine ⟨(r, countFeedbackWithRating fbs r), ?_, rfl⟩
        rw [sortedFeedbackRatingAggregate]
        apply (mem_sortDescBy _ _ _).mpr
        rw [feedbackRatingAggregate]
        exact List.mem_map.mpr ⟨r, List.mem_dedup.mpr hmem2, rfl⟩
      exact (countFeedbackWithRating_eq_zero fbs r hnot).symm

/-- C2 counterexample: the admin stats endpoint is not zero-filled — over an empty
Jobs collection its jobStatusStats (and feedbackRatingStats) is the empty mapping
rather than all five statuses (ratings) at 0, and over a collection holding one
applied job the status `interview` is absent from the mapping. -/
theorem c2_admin_stats_not_zero_filled_cex :
    adminJobStatusStats [] = []
    ∧ adminFeedbackRatingStats [] = []
    ∧ adminJobStatusStats [sampleJob 1 1 JobStatus.applied] = [(JobStatus.applied, 1)]
    ∧ JobStatus.interview ∉
        (adminJobStatusStats [sampleJob 1 1 JobStatus.applied]).map Prod.fst := by
  refine ⟨rfl, rfl, by decide, by decide⟩

/-- C3 counterexample: for a concrete valid payload, when the durable write succeeds
but the publish throws, POST /jobs answers 500 with success false — the publish
failure does turn the response into an error — even though the created job stays
committed in the database. -/
theorem c3_emit_failure_turns_response_into_error_cex :
    (createJobPipeline [] payloadValidNoStatus 1 100 1 false).response.success = false
    ∧ (createJobPipeline [] payloadValidNoStatus 1 100 1 false).response.code = 500
    ∧ (createJobPipeline [] payloadValidNoStatus 1 100 1 false).db
        = [createJobRecord payloadValidNoStatus 1 100 1] := by
  have hv : jobValidationPasses payloadValidNoStatus = true := by decide
  refine ⟨?_, ?_, ?_⟩ <;> simp [createJobPipeline, hv]

/-- C3 (amended): every emit sits inside the handler's try block, so when the durable
write succeeds but the publish throws, the handler answers the generic 500 error
(success false) instead of the success response; the committed write itself is kept,
not rolled back.  Shown for Job create, Feedback create, Job delete and Job update
with a status change. -/
theorem c3_emit_failure_gives_500 (jdb : List Job) (fdb : List Feedback)
    (p : JobPayload) (fp : FeedbackPayload) (jobId uid now newId : Nat)
    (hp : jobValidationPasses p = true)
    (hfp : feedbackValidationPasses fp = true) :
    ((createJobPipeline jdb p uid now newId false).response.code = 500
      ∧ (createJobPipeline jdb p uid now newId false).response.success = false
      ∧ (createJobPipeline jdb p uid now newId false).db
          = jdb ++ [createJobRecord p uid now newId])
    ∧ ((createFeedbackPipeline fdb fp now newId false).response.code = 500
      ∧ (createFeedbackPipeline fdb fp now newId false).response.success = false
      ∧ (createFeedbackPipeline fdb fp now newId false).db
          = fdb ++ [createFeedbackRecord fp now newId])
    ∧ (∀ job, findOwnedJob jdb jobId uid = some job →
        (deleteJobPipeline jdb jobId uid false).response.code = 500
        ∧ (deleteJobPipeline jdb jobId uid false).db
            = jdb.filter (fun x => !(x.id == jobId)))
    ∧ (∀ job, findOwnedJob jdb jobId uid = some job →
        (applyJobUpdate job p now).status ≠ job.status →
        (updateJobPipeline jdb jobId uid p now false).response.code = 500
        ∧ (updateJobPipeline jdb jobId uid p now false).response.success = false) := by
  refine ⟨⟨?_, ?_, ?_⟩, ⟨?_, ?_, ?_⟩, ?_, ?_⟩
  · simp [createJobPipeline, hp]
  · simp [createJobPipeline, hp]
  · simp [createJobPipeline, hp]
  · simp [createFeedbackPipeline, hfp]
  · simp [createFeedbackPipeline, hfp]
  · simp [createFeedbackPipeline, hfp]
  · intro job hj
    constructor <;> simp [deleteJobPipeline, hj]
  · intro job hj hst
    have hne : job.status ≠ (applyJobUpdate job p now).status := fun he => hst he.symm
    constructor <;> simp [updateJobPipeline, hp, hj, hne]

/-- C3 witness: the amended theorem applied to concrete databases and payloads,
including a delete and a status-changing update with a throwing publish. -/
theorem c3_emit_failure_gives_500_witness :
    ((createJobPipeline [] payloadValidNoStatus 1 100 2 false).response.code = 500
      ∧ (deleteJobPipeline [sampleJob 1 1 JobStatus.applied] 1 1 false).response.code = 500
      ∧ (updateJobPipeline [sampleJob 1 1 JobStatus.applied] 1 1
            { payloadValidNoStatus with status := some "interview" } 100 false).response.code
          = 500) := by
  have hp : jobValidationPasses
      { payloadValidNoStatus with status := some "interview" } = true := by decide
  have hp0 : jobValidationPasses payloadValidNoStatus = true := by decide
  have hfp : feedbackValidationPasses
      { name := none, email := none, feedback := some "Great tool", rating := some 5
        category := none, isPublic := none } = true := by decide
  have hfind : findOwnedJob [sampleJob 1 1 JobStatus.applied] 1 1
      = some (sampleJob 1 1 JobStatus.applied) := by decide
  have h1 := c3_emit_failure_gives_500 [] []
    payloadValidNoStatus
    { name := none, email := none, feedback := some "Great tool", rating := some 5
      category := none, isPublic := none } 1 1 100 2 hp0 hfp
  have h2 := c3_emit_failure_gives_500 [sampleJob 1 1 JobStatus.applied] []
    { payloadValidNoStatus with status := some "interview" }
    { name := none, email := none, feedback := some "Great tool", rating := some 5
      category := none, isPublic := none } 1 1 100 2 hp hfp
  refine ⟨h1.1.1, (h2.2.2.1 _ hfind).1, (h2.2.2.2 _ hfind (by decide)).1⟩

/- Two-job database used by the C4 counterexample. -/

def c4Db : List Job :=
  [sampleJob 1 1 JobStatus.applied, sampleJob 2 1 JobStatus.offer]

/-- C4 counterexample: an empty-string status is falsy in the guard
`if (status && status !== 'all')`, so the query built from it is literally the
no-filter query and matches every record of the collection — the empty string is
not distinguished from the no-filter case and does silently match everything,
in both GET /jobs and GET /admin/jobs. -/
theorem c4_empty_status_matches_everything_cex :
    buildJobListQuery 1 (some "") = buildJobListQuery 1 none
    ∧ runJobListQuery c4Db (buildJobListQuery 1 (some "")) = c4Db
    ∧ buildAdminJobListQuery (some "") = buildAdminJobListQuery none
    ∧ runJobListQuery c4Db (buildAdminJobListQuery (some "")) = c4Db := by
  refine ⟨by decide, by decide, by decide, by decide⟩

/-- C4 (amended): `status=all`, an omitted status, and an empty-string status all
leave the query without a status condition — the empty string behaves exactly like
the no-filter case (it is falsy) and therefore matches everything; any other status
string becomes an exact-match condition.  This holds for both the owner-scoped
GET /jobs query and the admin GET /admin/jobs query. -/
theorem c4_status_filter_policy (uid : Nat) (status : Option String) (db : List Job) :
    (status = none ∨ status = some "" ∨ status = some "all" →
      buildJobListQuery uid status = { user := some uid, status := none }
      ∧ buildAdminJobListQuery status = { user := none, status := none }
      ∧ runJobListQuery db (buildJobListQuery uid status)
          = db.filter (fun j => j.user == uid)
      ∧ runJobListQuery db (buildAdminJobListQuery status) = db)
    ∧ (∀ s, status = some s → s ≠ "" → s ≠ "all" →
      buildJobListQuery uid status = { user := some uid, status := some s }
      ∧ buildAdminJobListQuery status = { user := none, status := some s }) := by
  constructor
  · intro h
    have hcond : statusFilterCondition status = none := by
      rcases h with rfl | rfl | rfl
      · rfl
      · decide
      · decide
    refine ⟨?_, ?_, ?_, ?_⟩
    · simp [buildJobListQuery, hcond]
    · simp [buildAdminJobListQuery, hcond]
    · rw [runJobListQuery, buildJobListQuery, hcond]
      exact List.filter_congr (fun j _ => by simp [jobMatchesQuery])
    · rw [runJobListQuery, buildAdminJobListQuery, hcond]
      have hq : List.filter (jobMatchesQuery { user := none, status := none }) db
          = List.filter (fun _ => true) db :=
        List.filter_congr (fun j _ => by simp [jobMatchesQuery])
      rw [hq]
      exact List.filter_true db
  · intro s hs hs1 hs2
    subst hs
    have hcond : statusFilterCondition (some s) = some s := by
      rw [statusFilterCondition, if_pos ⟨hs1, hs2⟩]
    exact ⟨by simp [buildJobListQuery, hcond], by simp [buildAdminJobListQuery, hcond]⟩

/-- C4 witness: the amended theorem applied to the two-job database, at an omitted
status and at the exact-match status "offer". -/
theorem c4_status_filter_policy_witness :
    (runJobListQuery c4Db (buildJobListQuery 1 none)
        = c4Db.filter (fun j => j.user == 1)
      ∧ buildJobListQuery 1 (some "offer") = { user := some 1, status := some "offer" }) := by
  have h1 := (c4_status_filter_policy 1 none c4Db).1 (Or.inl rfl)
  have h2 := (c4_status_filter_policy 1 (some "offer") c4Db).2 "offer" rfl
    (by decide) (by decide)
  exact ⟨h1.2.2.1, h2.1⟩

/-- C5: for any matching sequence, page p ≥ 1 and limit L ≥ 1, the envelope's data
holds exactly min(L, total − (p−1)·L) records (0 when p exceeds the page count,
by truncated subtraction), `count` is the returned size, `total` is the full
matching count independent of pagination, and `pages` is ceil(total / L). -/
theorem c5_pagination_envelope (matching : List Job) (p L : Nat)
    (_hp : 1 ≤ p) (hL : 1 ≤ L) :
    (buildListEnvelope matching p L).data.length
        = min L (matching.length - (p - 1) * L)
    ∧ (buildListEnvelope matching p L).count
        = (buildListEnvelope matching p L).data.length
    ∧ (buildListEnvelope matching p L).total = matching.length
    ∧ (buildListEnvelope matching p L).pages
        = Nat.ceil ((matching.length : ℚ) / (L : ℚ)) := by
  refine ⟨?_, rfl, rfl, ?_⟩
  · simp [buildListEnvelope, paginateList]
  · exact ceilDivNat_eq_ceil matching.length L hL

/- Three-job database used by the C5 witness. -/

def c5Db : List Job :=
  [sampleJob 1 1 JobStatus.applied, sampleJob 2 1 JobStatus.offer,
   sampleJob 3 1 JobStatus.rejected]

/-- C5 witness: the pagination theorem applied to a three-record collection at
page 2, limit 2 — one returned record, total 3, 2 pages. -/
theorem c5_pagination_envelope_witness :
    (buildListEnvelope c5Db 2 2).data.length = min 2 (c5Db.length - (2 - 1) * 2)
    ∧ (buildListEnvelope c5Db 2 2).count = (buildListEnvelope c5Db 2 2).data.length
    ∧ (buildListEnvelope c5Db 2 2).total = c5Db.length
    ∧ (buildListEnvelope c5Db 2 2).pages
        = Nat.ceil ((c5Db.length : ℚ) / ((2 : ℕ) : ℚ)) :=
  c5_pagination_envelope c5Db 2 2 (by norm_num) (by norm_num)

/-- C6: a successful PUT /jobs/:id (validation passed, owned job found, publish
normal) answers 200; it emits exactly one job-status-updated event carrying
oldStatus = the prior status and newStatus = the stored status when the update
changes the status, and emits nothing when the status is unchanged. -/
theorem c6_status_change_notification (db : List Job) (jobId uid : Nat)
    (p : JobPayload) (now : Nat) (job : Job)
    (hv : jobValidationPasses p = true)
    (hfind : findOwnedJob db jobId uid = some job) :
    (updateJobPipeline db jobId uid p now true).response.code = 200
    ∧ ((applyJobUpdate job p now).status ≠ job.status →
        (updateJobPipeline db jobId uid p now true).events
          = [Event.jobStatusUpdated jobId job.status (applyJobUpdate job p now).status])
    ∧ ((applyJobUpdate job p now).status = job.status →
        (updateJobPipeline db jobId uid p now true).events = []) := by
  refine ⟨?_, ?_, ?_⟩
  · by_cases hst : job.status = (applyJobUpdate job p now).status
    · simp [updateJobPipeline, hv, hfind, hst]
    · simp [updateJobPipeline, hv, hfind, hst]
  · intro hne
    have hne2 : job.status ≠ (applyJobUpdate job p now).status := fun he => hne he.symm
    simp [updateJobPipeline, hv, hfind, hne2]
  · intro heq
    simp [updateJobPipeline, hv, hfind, heq]

/-- C6 witness: updating an applied job with a valid body whose status is
"interview" answers 200 and emits the single event carrying
oldStatus applied, newStatus interview. -/
theorem c6_status_change_notification_witness :
    (updateJobPipeline [sampleJob 1 1 JobStatus.applied] 1 1
        { payloadValidNoStatus with status := some "interview" } 100 true).response.code = 200
    ∧ (updateJobPipeline [sampleJob 1 1 JobStatus.applied] 1 1
        { payloadValidNoStatus with status := some "interview" } 100 true).events
      = [Event.jobStatusUpdated 1 JobStatus.applied JobStatus.interview] := by
  have hv : jobValidationPasses
      { payloadValidNoStatus with status := some "interview" } = true := by decide
  have hfind : findOwnedJob [sampleJob 1 1 JobStatus.applied] 1 1
      = some (sampleJob 1 1 JobStatus.applied) := by decide
  have h := c6_status_change_notification [sampleJob 1 1 JobStatus.applied] 1 1
    { payloadValidNoStatus with status := some "interview" } 100
    (sampleJob 1 1 JobStatus.applied) hv hfind
  refine ⟨h.1, (h.2.1 (by decide)).trans (by decide)⟩

/-- C7: the feedback statistics average-rating computation yields 0 on an empty
Feedback collection (the aggregate produces no row and the `or 0` fallback
applies — no division by zero occurs) and the arithmetic mean, sum of ratings
over record count, on a nonempty one.  The same expression is used by
GET /feedback/stats and GET /admin/stats. -/
theorem c7_average_rating (fbs : List Feedback) :
    feedbackAverageRating [] = 0
    ∧ (fbs ≠ [] →
        feedbackAverageRating fbs
          = (feedbackRatingSum fbs : ℚ) / (fbs.length : ℚ)) := by
  constructor
  · rfl
  · intro h
    rw [feedbackAverageRating, feedbackAvgAggregate,
        if_neg (by simp [List.isEmpty_iff, h])]
    rfl

/-- C7 witness: the average over two records rated five and four is 9/2. -/
theorem c7_average_rating_witness :
    feedbackAverageRating [sampleFeedback 1 Rating.five, sampleFeedback 2 Rating.four]
      = (feedbackRatingSum [sampleFeedback 1 Rating.five, sampleFeedback 2 Rating.four] : ℚ)
        / (([sampleFeedback 1 Rating.five, sampleFeedback 2 Rating.four] : List Feedback).length : ℚ) :=
  (c7_average_rating [sampleFeedback 1 Rating.five, sampleFeedback 2 Rating.four]).2
    (by decide)

/-- C8: every single-job lookup is scoped to the caller (`findOne({_id, user})`),
so when every record with the requested id belongs to a different user, GET,
DELETE and (for a validation-passing body) PUT answer exactly the 404 Job-not-found
response — never 403 — and the GET response is literally the response produced when
no record with that id exists at all, so the existence of another user's job is
not revealed; the delete leaves the database untouched. -/
theorem c8_ownership_isolation (db : List Job) (jobId uid : Nat) (p : JobPayload)
    (now : Nat) (h : ∀ j ∈ db, j.id = jobId → j.user ≠ uid) :
    getJobByIdPipeline db jobId uid = jobNotFoundResponse
    ∧ (deleteJobPipeline db jobId uid true).response = jobNotFoundResponse
    ∧ (deleteJobPipeline db jobId uid true).db = db
    ∧ (jobValidationPasses p = true →
        (updateJobPipeline db jobId uid p now true).response = jobNotFoundResponse)
    ∧ getJobByIdPipeline db jobId uid
        = getJobByIdPipeline (db.filter (fun j => !(j.id == jobId))) jobId uid := by
  have hfind : findOwnedJob db jobId uid = none := by
    rw [findOwnedJob, List.find?_eq_none]
    intro j hj hc
    rw [Bool.and_eq_true, beq_iff_eq, beq_iff_eq] at hc
    exact h j hj hc.1 hc.2
  have hfind2 : findOwnedJob (db.filter (fun j => !(j.id == jobId))) jobId uid = none := by
    rw [findOwnedJob, List.find?_eq_none]
    intro j hj hc
    rw [Bool.and_eq_true, beq_iff_eq, beq_iff_eq] at hc
    exact h j (List.mem_of_mem_filter hj) hc.1 hc.2
  refine ⟨?_, ?_, ?_, ?_, ?_⟩
  · simp [getJobByIdPipeline, hfind]
  · simp [deleteJobPipeline, hfind]
  · simp [deleteJobPipeline, hfind]
  · intro hv
    simp [updateJobPipeline, hv, hfind]
  · simp [getJobByIdPipeline, hfind, hfind2]

/-- C8 witness: user 1 requesting job 1, which exists but belongs to user 2,
receives the 404 Job-not-found response from GET, DELETE and PUT. -/
theorem c8_ownership_isolation_witness :
    getJobByIdPipeline [sampleJob 1 2 JobStatus.applied] 1 1 = jobNotFoundResponse
    ∧ (deleteJobPipeline [sampleJob 1 2 JobStatus.applied] 1 1 true).response
        = jobNotFoundResponse
    ∧ (updateJobPipeline [sampleJob 1 2 JobStatus.applied] 1 1
        payloadValidNoStatus 100 true).response = jobNotFoundResponse := by
  have h := c8_ownership_isolation [sampleJob 1 2 JobStatus.applied] 1 1
    payloadValidNoStatus 100 (by decide)
  exact ⟨h.1, h.2.1, h.2.2.2.1 (by decide)⟩

/-- C9: PUT /admin/users/:id/toggle-status on an existing user answers 200 and
negates exactly the `isActive` flag of that user's record; applying the operation
twice restores the record — the whole record, hence in particular `isActive` — to
its original value, so the operation is an involution. -/
theorem c9_toggle_status_involution (db : List User) (uid : Nat) (u : User)
    (h : findUserById db uid = some u) :
    (toggleUserStatusPipeline db uid).response.code = 200
    ∧ findUserById (toggleUserStatusPipeline db uid).db uid
        = some { u with isActive := !u.isActive }
    ∧ findUserById
        (toggleUserStatusPipeline (toggleUserStatusPipeline db uid).db uid).db uid
        = some u := by
  have hid : (u.id == uid) = true := by
    have h2 : List.find? (fun x => x.id == uid) db = some u := h
    have h3 := List.find?_some h2
    exact h3
  have h1 : findUserById (toggleUserStatusPipeline db uid).db uid
      = some { u with isActive := !u.isActive } := by
    simp only [toggleUserStatusPipeline, h]
    rw [findUserById,
        find?_map_update (fun x => x.id == uid) (fun _ => { u with isActive := !u.isActive })
          (fun x _ => hid) db]
    rw [findUserById] at h
    rw [h]
    rfl
  refine ⟨by simp [toggleUserStatusPipeline, h], h1, ?_⟩
  set db1 := (toggleUserStatusPipeline db uid).db with hdb1
  simp only [toggleUserStatusPipeline, h1]
  rw [findUserById,
      find?_map_update (fun x => x.id == uid)
        (fun _ => { u with isActive := !(!u.isActive) })
        (fun x _ => hid) db1]
  rw [findUserById] at h1
  rw [h1]
  cases u
  simp [Bool.not_not]

/-- C9 witness: toggling user 1 (initially active) deactivates the record, and
toggling again restores it exactly. -/
theorem c9_toggle_status_involution_witness :
    (toggleUserStatusPipeline [sampleUser 1 true] 1).response.code = 200
    ∧ findUserById (toggleUserStatusPipeline [sampleUser 1 true] 1).db 1
        = some { sampleUser 1 true with isActive := false }
    ∧ findUserById
        (toggleUserStatusPipeline (toggleUserStatusPipeline [sampleUser 1 true] 1).db 1).db 1
        = some (sampleUser 1 true) := by
  have h := c9_toggle_status_involution [sampleUser 1 true] 1 (sampleUser 1 true) (by decide)
  exact ⟨h.1, h.2.1.trans (by decide), h.2.2⟩

/-- C10: PUT /admin/feedback/:id/status with an invalid (or absent) status answers
400 and leaves the collection untouched; with an absent id it leaves the collection
untouched; and a successful update answers 200 and changes only the `status` field:
the target record keeps its name, email, feedback text, rating, category, isPublic,
id and createdAt, every record with a different id is entirely unchanged, and every
record with the requested id gets exactly the parsed status. -/
theorem c10_update_feedback_status_frame (db : List Feedback) (fid : Nat)
    (sBody : Option String) :
    ((match sBody with
      | some s => feedbackStatusStrings.contains s
      | none => false) = false →
      (updateFeedbackStatusPipeline db fid sBody).db = db
      ∧ (updateFeedbackStatusPipeline db fid sBody).response.code = 400)
    ∧ (findFeedbackById db fid = none →
      (updateFeedbackStatusPipeline db fid sBody).db = db)
    ∧ (∀ s fb, sBody = some s → feedbackStatusStrings.contains s = true →
        findFeedbackById db fid = some fb →
        (updateFeedbackStatusPipeline db fid sBody).response.code = 200
        ∧ findFeedbackById (updateFeedbackStatusPipeline db fid sBody).db fid
            = some { fb with status := (parseFeedbackStatus s).getD fb.status }
        ∧ (updateFeedbackStatusPipeline db fid sBody).db.length = db.length
        ∧ ∀ i (hi : i < db.length)
            (hj : i < (updateFeedbackStatusPipeline db fid sBody).db.length),
            ((updateFeedbackStatusPipeline db fid sBody).db[i].id = db[i].id
            ∧ (updateFeedbackStatusPipeline db fid sBody).db[i].name = db[i].name
            ∧ (updateFeedbackStatusPipeline db fid sBody).db[i].email = db[i].email
            ∧ (updateFeedbackStatusPipeline db fid sBody).db[i].feedback = db[i].feedback
            ∧ (updateFeedbackStatusPipeline db fid sBody).db[i].rating = db[i].rating
            ∧ (updateFeedbackStatusPipeline db fid sBody).db[i].category = db[i].category
            ∧ (updateFeedbackStatusPipeline db fid sBody).db[i].isPublic = db[i].isPublic
            ∧ (updateFeedbackStatusPipeline db fid sBody).db[i].createdAt = db[i].createdAt)
            ∧ (db[i].id ≠ fid →
                (updateFeedbackStatusPipeline db fid sBody).db[i] = db[i])
            ∧ (db[i].id = fid →
                (updateFeedbackStatusPipeline db fid sBody).db[i].status
                  = (parseFeedbackStatus s).getD fb.status)) := by
  refine ⟨?_, ?_, ?_⟩
  · intro hbad
    cases sBody with
    | none =>
      constructor <;> simp [updateFeedbackStatusPipeline]
    | some s =>
      have hbad2 : feedbackStatusStrings.contains s = false := hbad
      have hnotmem : s ∉ feedbackStatusStrings := by simpa using hbad2
      constructor <;> simp [updateFeedbackStatusPipeline, hnotmem]
  · intro hnone
    cases sBody with
    | none => simp [updateFeedbackStatusPipeline]
    | some s =>
      by_cases hok : s ∈ feedbackStatusStrings
      · simp [updateFeedbackStatusPipeline, hok, hnone]
      · simp [updateFeedbackStatusPipeline, hok]
  · intro s fb hs hmem hfind
    subst hs
    have smem : s ∈ feedbackStatusStrings := by simpa using hmem
    refine ⟨?_, ?_, ?_, ?_⟩
    · simp [updateFeedbackStatusPipeline, smem, hfind]
    · simp only [updateFeedbackStatusPipeline, hmem, if_true, hfind, Option.some_bind]
      rw [findFeedbackById,
          find?_map_update (fun x => x.id == fid)
            (fun x => { x with status := (parseFeedbackStatus s).getD fb.status })
            (fun x hx => hx) db]
      rw [findFeedbackById] at hfind
      rw [hfind]
      rfl
    · simp [updateFeedbackStatusPipeline, smem, hfind]
    · intro i hi
      simp only [updateFeedbackStatusPipeline, hmem, if_true, hfind, Option.some_bind]
      intro hj
      simp only [List.getElem_map]
      by_cases hx : (db[i].id == fid) = true
      · have hxeq : db[i].id = fid := by rwa [beq_iff_eq] at hx
        simp [hx, hxeq]
      · have hxne : db[i].id ≠ fid := by simpa [beq_iff_eq] using hx
        simp [hx, hxne]

/- Two-feedback database used by the C10 witness. -/

def c10Db : List Feedback :=
  [sampleFeedback 1 Rating.five, sampleFeedback 2 Rating.three]

/-- C10 witness: setting feedback 1's status to "reviewed" answers 200 and stores
the record with only the status changed, while the invalid status "bogus" leaves
the collection untouched. -/
theorem c10_update_feedback_status_frame_witness :
    (updateFeedbackStatusPipeline c10Db 1 (some "reviewed")).response.code = 200
    ∧ findFeedbackById (updateFeedbackStatusPipeline c10Db 1 (some "reviewed")).db 1
        = some { sampleFeedback 1 Rating.five with status := FeedbackStatus.reviewed }
    ∧ (updateFeedbackStatusPipeline c10Db 1 (some "bogus")).db = c10Db := by
  have h := c10_update_feedback_status_frame c10Db 1 (some "reviewed")
  have h3 := h.2.2 "reviewed" (sampleFeedback 1 Rating.five) rfl (by decide) (by decide)
  have h2 := (c10_update_feedback_status_frame c10Db 1 (some "bogus")).1 (by decide)
  exact ⟨h3.1, h3.2.1.trans (by decide), h2.1⟩

end JobTracker
